import Mathlib

/-!
Verification of the projection engine and sensitivity sweep of
`net-worth-estimator` (`src/app.py`), shallowly embedded in Lean 4.

Real-number arithmetic of the Python source is modelled exactly over `ℚ`;
Python's `round(x, 2)` (round to 2 decimal places, ties to even) is modelled
by `round2` below.
-/

/-- The immutable scalar inputs of one projection run: the parameters of
`calculate_net_worth_projection` in `app.py`, in source order. -/
structure Assumptions where
  initial_net_worth : ℚ
  initial_salary : ℚ
  salary_growth_rate : ℚ
  asset_growth_rate : ℚ
  dividend_yield : ℚ
  tax_rate : ℚ
  expense_ratio : ℚ
  start_year : ℤ
  end_year : ℤ
deriving DecidableEq

/-- One row of the DataFrame built by `calculate_net_worth_projection`
(the `current_state` dict, app.py lines 70-79). -/
structure YearlySnapshot where
  year : ℤ
  net_worth : ℚ
  salary : ℚ
  dividend_income : ℚ
  total_income : ℚ
  after_tax_income : ℚ
  expenses : ℚ
  savings : ℚ
deriving DecidableEq

/-- Round a rational to the nearest integer, ties to the even integer:
the rounding of Python's built-in `round` on exactly represented values. -/
def roundHalfEven (q : ℚ) : ℤ :=
  if q - ⌊q⌋ < 1/2 then ⌊q⌋
  else if 1/2 < q - ⌊q⌋ then ⌊q⌋ + 1
  else if ⌊q⌋ % 2 = 0 then ⌊q⌋ else ⌊q⌋ + 1

/-- Python's `round(x, 2)`: round to 2 decimal places, ties to even. -/
def round2 (q : ℚ) : ℚ := (roundHalfEven (100 * q) : ℚ) / 100

/-- The state update of one loop iteration (app.py lines 54-88): from the
running pair `(current_net_worth, current_salary)` compute this year's
derived values and return next year's running pair. -/
def stepState (a : Assumptions) (st : ℚ × ℚ) : ℚ × ℚ :=
  let dividend_income := st.1 * a.dividend_yield
  let total_income := st.2 + dividend_income
  let after_tax_income := total_income * (1 - a.tax_rate)
  let expenses := after_tax_income * a.expense_ratio
  let savings := after_tax_income - expenses
  ((st.1 + savings) * (1 + a.asset_growth_rate),
   st.2 * (1 + a.salary_growth_rate))

/-- The snapshot emitted for one year (app.py lines 54-79): the derived
values of the pre-update running pair, each rounded to 2 decimal places. -/
def snapshotFor (a : Assumptions) (year : ℤ) (st : ℚ × ℚ) : YearlySnapshot :=
  let dividend_income := st.1 * a.dividend_yield
  let total_income := st.2 + dividend_income
  let after_tax_income := total_income * (1 - a.tax_rate)
  let expenses := after_tax_income * a.expense_ratio
  let savings := after_tax_income - expenses
  { year := year
    net_worth := round2 st.1
    salary := round2 st.2
    dividend_income := round2 dividend_income
    total_income := round2 total_income
    after_tax_income := round2 after_tax_income
    expenses := round2 expenses
    savings := round2 savings }

/-- The loop of app.py lines 53-90: iterate over `k` consecutive years
starting at `y`, emitting one snapshot per year and threading the
full-precision running state. -/
def projFrom (a : Assumptions) : ℤ → ℕ → ℚ × ℚ → List YearlySnapshot
  | _, 0, _ => []
  | y, k + 1, st => snapshotFor a y st :: projFrom a (y + 1) k (stepState a st)

/-- Number of simulated years: the length of Python's
`list(range(start_year, end_year + 1))` (app.py line 47). -/
def numYears (a : Assumptions) : ℕ := (a.end_year + 1 - a.start_year).toNat

/-- `calculate_net_worth_projection` (app.py lines 7-92): run the yearly loop
over `range(start_year, end_year + 1)` from the initial state and collect the
emitted rows in order. -/
def calculate_net_worth_projection (a : Assumptions) : List YearlySnapshot :=
  projFrom a a.start_year (numYears a) (a.initial_net_worth, a.initial_salary)

/-- The full-precision running state before the `i`-th iteration of the loop
(`(current_net_worth, current_salary)` at the top of iteration `i`). -/
def state (a : Assumptions) : ℕ → ℚ × ℚ
  | 0 => (a.initial_net_worth, a.initial_salary)
  | i + 1 => stepState a (state a i)

/-- The full-precision `current_net_worth` at the top of iteration `i`. -/
def netWorthState (a : Assumptions) (i : ℕ) : ℚ := (state a i).1

/-- The full-precision `current_salary` at the top of iteration `i`. -/
def salaryState (a : Assumptions) (i : ℕ) : ℚ := (state a i).2

/-- `result.iloc[-1]["Net Worth"]` of one sweep cell (app.py line 250): the
`net_worth` of the last emitted snapshot (0 for an empty projection, which the
sweep of app.py never hits because its year range is the validated UI range). -/
def finalNetWorth (a : Assumptions) : ℚ :=
  ((calculate_net_worth_projection a).map YearlySnapshot.net_worth).getLastD 0

/-- The sensitivity sweep of app.py lines 235-251: the outer loop runs over
the growth grid (one row each), the inner loop over the tax grid (one column
each); each cell re-runs the full projection with the grid pair substituted
for `tax_rate` and `asset_growth_rate`. -/
def sweep (a : Assumptions) (tax_rate_grid growth_rate_grid : List ℚ) :
    List (List ℚ) :=
  growth_rate_grid.map fun growth =>
    tax_rate_grid.map fun tax =>
      finalNetWorth { a with tax_rate := tax, asset_growth_rate := growth }

/-! ### Basic properties of the rounding function -/

lemma le_roundHalfEven (x : ℚ) : ⌊x⌋ ≤ roundHalfEven x := by
  unfold roundHalfEven; split_ifs <;> omega

lemma roundHalfEven_le (x : ℚ) : roundHalfEven x ≤ ⌊x⌋ + 1 := by
  unfold roundHalfEven; split_ifs <;> omega

lemma roundHalfEven_mono {x y : ℚ} (h : x ≤ y) :
    roundHalfEven x ≤ roundHalfEven y := by
  have hf : ⌊x⌋ ≤ ⌊y⌋ := Int.floor_mono h
  rcases eq_or_lt_of_le hf with he | hlt
  · have hxy : x - (⌊x⌋ : ℚ) ≤ y - (⌊y⌋ : ℚ) := by
      rw [← he]; linarith
    unfold roundHalfEven
    rw [← he]
    rw [← he] at hxy
    split_ifs <;> first | omega | (exfalso; linarith)
  · calc roundHalfEven x ≤ ⌊x⌋ + 1 := roundHalfEven_le x
      _ ≤ ⌊y⌋ := by omega
      _ ≤ roundHalfEven y := le_roundHalfEven y

lemma round2_mono {x y : ℚ} (h : x ≤ y) : round2 x ≤ round2 y := by
  unfold round2
  have : roundHalfEven (100 * x) ≤ roundHalfEven (100 * y) :=
    roundHalfEven_mono (by linarith)
  gcongr

lemma round2_nonneg {x : ℚ} (h : 0 ≤ x) : 0 ≤ round2 x := by
  unfold round2
  have h0 : (0 : ℤ) ≤ ⌊(100 : ℚ) * x⌋ := Int.floor_nonneg.mpr (by linarith)
  have h1 : (0 : ℤ) ≤ roundHalfEven (100 * x) :=
    le_trans h0 (le_roundHalfEven _)
  positivity

/-! ### Structure of the projection list -/

lemma projFrom_length (a : Assumptions) :
    ∀ (k : ℕ) (y : ℤ) (st : ℚ × ℚ), (projFrom a y k st).length = k := by
  intro k
  induction k with
  | zero => intro y st; rfl
  | succ k ih => intro y st; simp [projFrom, ih]

lemma calc_length (a : Assumptions) :
    (calculate_net_worth_projection a).length = numYears a :=
  projFrom_length a (numYears a) a.start_year _

lemma projFrom_get? (a : Assumptions) :
    ∀ (k : ℕ) (y : ℤ) (st : ℚ × ℚ) (i : ℕ), i < k →
      (projFrom a y k st).get? i =
        some (snapshotFor a (y + i) ((stepState a)^[i] st)) := by
  intro k
  induction k with
  | zero => intro y st i h; exact absurd h (Nat.not_lt_zero i)
  | succ k ih =>
    intro y st i h
    cases i with
    | zero => simp [projFrom]
    | succ i =>
      have h' : i < k := Nat.lt_of_succ_lt_succ h
      have hy : (y + 1) + (i : ℤ) = y + ((i : ℕ) + 1 : ℕ) := by push_cast; ring
      simp only [projFrom, List.get?_cons_succ, ih (y + 1) (stepState a st) i h',
        Function.iterate_succ_apply, hy]

lemma state_eq_iterate (a : Assumptions) (i : ℕ) :
    state a i = (stepState a)^[i] (a.initial_net_worth, a.initial_salary) := by
  induction i with
  | zero => rfl
  | succ i ih => simp [state, ih, Function.iterate_succ_apply']

lemma calc_get? (a : Assumptions) (i : ℕ) (hi : i < numYears a) :
    (calculate_net_worth_projection a).get? i =
      some (snapshotFor a (a.start_year + i) (state a i)) := by
  rw [calculate_net_worth_projection,
    projFrom_get? a (numYears a) a.start_year _ i hi, state_eq_iterate]

/-- The full-precision savings computed at the top of iteration `i`
(`savings` of app.py line 67, before any rounding). -/
def savingsState (a : Assumptions) (i : ℕ) : ℚ :=
  (salaryState a i + netWorthState a i * a.dividend_yield) * (1 - a.tax_rate) -
    (salaryState a i + netWorthState a i * a.dividend_yield) * (1 - a.tax_rate) *
      a.expense_ratio

lemma netWorthState_succ (a : Assumptions) (i : ℕ) :
    netWorthState a (i + 1) =
      (netWorthState a i + savingsState a i) * (1 + a.asset_growth_rate) := by
  simp [netWorthState, salaryState, savingsState, state, stepState]

lemma salaryState_succ (a : Assumptions) (i : ℕ) :
    salaryState a (i + 1) = salaryState a i * (1 + a.salary_growth_rate) := by
  simp [salaryState, state, stepState]

lemma snapshotFor_eq (a : Assumptions) (y : ℤ) (st : ℚ × ℚ) :
    snapshotFor a y st =
      { year := y
        net_worth := round2 st.1
        salary := round2 st.2
        dividend_income := round2 (st.1 * a.dividend_yield)
        total_income := round2 (st.2 + st.1 * a.dividend_yield)
        after_tax_income :=
          round2 ((st.2 + st.1 * a.dividend_yield) * (1 - a.tax_rate))
        expenses :=
          round2 ((st.2 + st.1 * a.dividend_yield) * (1 - a.tax_rate) *
            a.expense_ratio)
        savings :=
          round2 ((st.2 + st.1 * a.dividend_yield) * (1 - a.tax_rate) -
            (st.2 + st.1 * a.dividend_yield) * (1 - a.tax_rate) *
              a.expense_ratio) } := rfl

lemma numYears_pos (a : Assumptions) (h : a.start_year ≤ a.end_year) :
    0 < numYears a := by
  unfold numYears; omega

lemma numYears_cast (a : Assumptions) (h : a.start_year ≤ a.end_year) :
    (numYears a : ℤ) = a.end_year - a.start_year + 1 := by
  unfold numYears; omega

lemma calc_getLast? (a : Assumptions) (h : a.start_year ≤ a.end_year) :
    (calculate_net_worth_projection a).getLast? =
      some (snapshotFor a (a.start_year + (numYears a - 1 : ℕ))
        (state a (numYears a - 1))) := by
  rw [List.getLast?_eq_get?, calc_length]
  exact calc_get? a (numYears a - 1) (by have := numYears_pos a h; omega)

lemma finalNetWorth_eq (a : Assumptions) (h : a.start_year ≤ a.end_year) :
    finalNetWorth a = round2 (netWorthState a (numYears a - 1)) := by
  unfold finalNetWorth
  rw [List.getLastD_eq_getLast?, List.getLast?_map, calc_getLast? a h,
    snapshotFor_eq]
  rfl

/-! ### Nonnegativity of the running state and of the emitted values -/

lemma state_nonneg (a : Assumptions) (h1 : 0 ≤ a.initial_net_worth)
    (h2 : 0 ≤ a.initial_salary) (h3 : 0 ≤ a.dividend_yield)
    (h5 : a.tax_rate ≤ 1) (h6 : 0 ≤ a.expense_ratio) (h7 : a.expense_ratio ≤ 1)
    (h8 : -1 ≤ a.asset_growth_rate) (h9 : -1 ≤ a.salary_growth_rate) :
    ∀ i : ℕ, 0 ≤ netWorthState a i ∧ 0 ≤ salaryState a i := by
  intro i
  induction i with
  | zero => exact ⟨h1, h2⟩
  | succ i ih =>
    obtain ⟨hn, hs⟩ := ih
    have hAT : 0 ≤ (salaryState a i + netWorthState a i * a.dividend_yield) *
        (1 - a.tax_rate) :=
      mul_nonneg (add_nonneg hs (mul_nonneg hn h3)) (by linarith)
    have hsav : 0 ≤ savingsState a i := by
      unfold savingsState
      nlinarith [mul_nonneg hAT (sub_nonneg.mpr h7)]
    constructor
    · rw [netWorthState_succ]
      exact mul_nonneg (by linarith) (by linarith)
    · rw [salaryState_succ]
      exact mul_nonneg hs (by linarith)

lemma snapshotFor_nonneg (a : Assumptions) (h3 : 0 ≤ a.dividend_yield)
    (h5 : a.tax_rate ≤ 1) (h6 : 0 ≤ a.expense_ratio) (h7 : a.expense_ratio ≤ 1)
    (y : ℤ) (st : ℚ × ℚ) (hn : 0 ≤ st.1) (hs : 0 ≤ st.2) :
    0 ≤ (snapshotFor a y st).net_worth ∧ 0 ≤ (snapshotFor a y st).salary ∧
    0 ≤ (snapshotFor a y st).dividend_income ∧
    0 ≤ (snapshotFor a y st).total_income ∧
    0 ≤ (snapshotFor a y st).after_tax_income ∧
    0 ≤ (snapshotFor a y st).expenses ∧ 0 ≤ (snapshotFor a y st).savings := by
  have hdiv : 0 ≤ st.1 * a.dividend_yield := mul_nonneg hn h3
  have htot : 0 ≤ st.2 + st.1 * a.dividend_yield := add_nonneg hs hdiv
  have hAT : 0 ≤ (st.2 + st.1 * a.dividend_yield) * (1 - a.tax_rate) :=
    mul_nonneg htot (by linarith)
  have hexp : 0 ≤ (st.2 + st.1 * a.dividend_yield) * (1 - a.tax_rate) *
      a.expense_ratio := mul_nonneg hAT h6
  have hsav : 0 ≤ (st.2 + st.1 * a.dividend_yield) * (1 - a.tax_rate) -
      (st.2 + st.1 * a.dividend_yield) * (1 - a.tax_rate) * a.expense_ratio := by
    nlinarith [mul_nonneg hAT (sub_nonneg.mpr h7)]
  rw [snapshotFor_eq]
  exact ⟨round2_nonneg hn, round2_nonneg hs, round2_nonneg hdiv,
    round2_nonneg htot, round2_nonneg hAT, round2_nonneg hexp,
    round2_nonneg hsav⟩

lemma calc_empty_of_reversed (a : Assumptions) (h : a.end_year < a.start_year) :
    calculate_net_worth_projection a = [] := by
  have h0 : numYears a = 0 := by unfold numYears; omega
  rw [calculate_net_worth_projection, h0]
  rfl

/-! ### Concrete scenarios used to instantiate the theorems -/

/-- The concrete scenario of spec §8 (the default UI values of app.py). -/
def demoA : Assumptions :=
  { initial_net_worth := 100000, initial_salary := 75000,
    salary_growth_rate := 3/100, asset_growth_rate := 7/100,
    dividend_yield := 2/100, tax_rate := 25/100, expense_ratio := 70/100,
    start_year := 2024, end_year := 2024 }

/-- The same scenario extended by one year. -/
def twoYearA : Assumptions := { demoA with end_year := 2025 }

/-- The invalid-year-order input of spec §8. -/
def reversedYearsA : Assumptions :=
  { demoA with start_year := 2030, end_year := 2025 }

/-! ### Claim theorems -/

/-- C3: for `end_year ≥ start_year`, `calculate_net_worth_projection` returns
exactly `end_year - start_year + 1` snapshots, and the `i`-th snapshot's year
is `start_year + i`, so the years start at `start_year` and increase by
exactly 1. -/
theorem projection_length_and_years (a : Assumptions)
    (h : a.start_year ≤ a.end_year) :
    ((calculate_net_worth_projection a).length : ℤ) =
      a.end_year - a.start_year + 1 ∧
    ∀ i : ℕ, i < (calculate_net_worth_projection a).length →
      ((calculate_net_worth_projection a).get? i).map YearlySnapshot.year =
        some (a.start_year + i) := by
  constructor
  · rw [calc_length]; exact numYears_cast a h
  · intro i hi
    rw [calc_length] at hi
    rw [calc_get? a i hi, snapshotFor_eq]
    rfl

/-- Witness for C3 at the concrete scenario of spec §8. -/
theorem projection_length_and_years_witness :
    ((calculate_net_worth_projection demoA).length : ℤ) =
      demoA.end_year - demoA.start_year + 1 ∧
    ∀ i : ℕ, i < (calculate_net_worth_projection demoA).length →
      ((calculate_net_worth_projection demoA).get? i).map YearlySnapshot.year =
        some (demoA.start_year + i) :=
  projection_length_and_years demoA (by norm_num [demoA])

/-- C9: with `end_year < start_year` the function raises no error at all:
`range(start_year, end_year + 1)` is empty, the loop body never runs, and the
empty projection is returned. -/
theorem empty_projection_when_end_before_start (a : Assumptions)
    (h : a.end_year < a.start_year) :
    calculate_net_worth_projection a = [] :=
  calc_empty_of_reversed a h

/-- Witness for C9 at `start_year = 2030`, `end_year = 2025`. -/
theorem empty_projection_when_end_before_start_witness :
    calculate_net_worth_projection reversedYearsA = [] :=
  empty_projection_when_end_before_start reversedYearsA
    (by norm_num [reversedYearsA, demoA])

/-- C5 counterexample: no `InvalidInputError` exists in the code.  With
`start_year = 2030 > end_year = 2025` a projection (the empty one) is
returned rather than an error raised, and with `tax_rate = 1.0` the
projection runs to completion and returns its single snapshot, refuting
"raises InvalidInputError and no projection is returned". -/
theorem no_invalid_input_error_counterexample :
    calculate_net_worth_projection reversedYearsA = [] ∧
    (calculate_net_worth_projection { demoA with tax_rate := 1 }).length = 1 := by
  constructor
  · exact calc_empty_of_reversed reversedYearsA (by norm_num [reversedYearsA, demoA])
  · rw [calc_length]
    norm_num [numYears, demoA]

/-- C5 (amended): `calculate_net_worth_projection` performs no input
validation.  With `end_year < start_year` it silently returns the empty
projection, and any `tax_rate` — including the out-of-domain 1.0 — is
accepted: the projection still runs and returns its usual number of
snapshots. -/
theorem no_input_validation (a : Assumptions) :
    (a.end_year < a.start_year → calculate_net_worth_projection a = []) ∧
    (calculate_net_worth_projection { a with tax_rate := 1 }).length =
      numYears a := by
  refine ⟨calc_empty_of_reversed a, ?_⟩
  rw [calc_length]
  rfl

/-- Witness for C5's amended theorem at the spec §8 invalid input. -/
theorem no_input_validation_witness :
    calculate_net_worth_projection reversedYearsA = [] ∧
    (calculate_net_worth_projection { reversedYearsA with tax_rate := 1 }).length =
      numYears reversedYearsA :=
  ⟨(no_input_validation reversedYearsA).1 (by norm_num [reversedYearsA, demoA]),
   (no_input_validation reversedYearsA).2⟩

/-- C6: the concrete scenario of spec §8: one simulated year 2024 with the
stated emitted values, and the 2025 snapshot of the two-year run has
`net_worth = (100000 + 17325) * 1.07 = 125537.75`. -/
theorem concrete_scenario_2024 :
    calculate_net_worth_projection demoA =
      [{ year := 2024, net_worth := 100000, salary := 75000,
         dividend_income := 2000, total_income := 77000,
         after_tax_income := 57750, expenses := 40425, savings := 17325 }] ∧
    ((calculate_net_worth_projection twoYearA).get? 1).map
      YearlySnapshot.net_worth = some (12553775/100) := by
  constructor
  · norm_num [demoA, calculate_net_worth_projection, numYears, projFrom,
      stepState, snapshotFor, round2, roundHalfEven]
  · norm_num [twoYearA, demoA, calculate_net_worth_projection, numYears,
      projFrom, stepState, snapshotFor, round2, roundHalfEven, List.get?]

/-- An otherwise-valid input whose initial net worth is not a whole number of
cents. -/
def subCentA : Assumptions := { demoA with initial_net_worth := 1/1000 }

/-- C1 counterexample: with the valid input `initial_net_worth = 0.001 ≥ 0`
the first emitted snapshot carries `round(0.001, 2) = 0.00`, not the initial
net worth, so "the first snapshot has net_worth == initial_net_worth" fails
once the 2-decimal emission rounding of the same claim is applied. -/
theorem first_snapshot_rounds_initial_counterexample :
    subCentA.initial_net_worth = 1/1000 ∧
    ((calculate_net_worth_projection subCentA).get? 0).map
      YearlySnapshot.net_worth = some 0 ∧
    ((calculate_net_worth_projection subCentA).get? 0).map
      YearlySnapshot.net_worth ≠ some subCentA.initial_net_worth := by
  refine ⟨by norm_num [subCentA, demoA], ?_, ?_⟩ <;>
    norm_num [subCentA, demoA, calculate_net_worth_projection, numYears,
      projFrom, stepState, snapshotFor, round2, roundHalfEven, List.get?]

/-- C1 (amended): every snapshot of the projection is built from the
pre-update running state: the `i`-th snapshot holds the running net worth and
salary together with `dividend_income = net_worth * dividend_yield`,
`total_income = salary + dividend_income`,
`after_tax_income = total_income * (1 - tax_rate)` (salary and dividends both
taxed at the single effective rate),
`expenses = after_tax_income * expense_ratio` and
`savings = after_tax_income - expenses`, each emitted value rounded to 2
decimal places; the running state of the first snapshot is exactly
`(initial_net_worth, initial_salary)`, so the first snapshot's emitted
`net_worth`/`salary` are `round2` of the initial values (equal to them
whenever they are whole cents). -/
theorem snapshot_fields_from_pre_update_state (a : Assumptions) (i : ℕ)
    (hi : i < numYears a) :
    (calculate_net_worth_projection a).get? i =
      some
        { year := a.start_year + i
          net_worth := round2 (netWorthState a i)
          salary := round2 (salaryState a i)
          dividend_income := round2 (netWorthState a i * a.dividend_yield)
          total_income :=
            round2 (salaryState a i + netWorthState a i * a.dividend_yield)
          after_tax_income :=
            round2 ((salaryState a i + netWorthState a i * a.dividend_yield) *
              (1 - a.tax_rate))
          expenses :=
            round2 ((salaryState a i + netWorthState a i * a.dividend_yield) *
              (1 - a.tax_rate) * a.expense_ratio)
          savings :=
            round2 ((salaryState a i + netWorthState a i * a.dividend_yield) *
              (1 - a.tax_rate) -
              (salaryState a i + netWorthState a i * a.dividend_yield) *
                (1 - a.tax_rate) * a.expense_ratio) } ∧
    netWorthState a 0 = a.initial_net_worth ∧
    salaryState a 0 = a.initial_salary := by
  refine ⟨?_, rfl, rfl⟩
  rw [calc_get? a i hi, snapshotFor_eq]
  rfl

/-- Witness for C1's amended theorem at the concrete scenario of spec §8. -/
theorem snapshot_fields_from_pre_update_state_witness :
    (calculate_net_worth_projection demoA).get? 0 =
      some
        { year := demoA.start_year + (0 : ℕ)
          net_worth := round2 (netWorthState demoA 0)
          salary := round2 (salaryState demoA 0)
          dividend_income := round2 (netWorthState demoA 0 * demoA.dividend_yield)
          total_income :=
            round2 (salaryState demoA 0 + netWorthState demoA 0 * demoA.dividend_yield)
          after_tax_income :=
            round2 ((salaryState demoA 0 + netWorthState demoA 0 * demoA.dividend_yield) *
              (1 - demoA.tax_rate))
          expenses :=
            round2 ((salaryState demoA 0 + netWorthState demoA 0 * demoA.dividend_yield) *
              (1 - demoA.tax_rate) * demoA.expense_ratio)
          savings :=
            round2 ((salaryState demoA 0 + netWorthState demoA 0 * demoA.dividend_yield) *
              (1 - demoA.tax_rate) -
              (salaryState demoA 0 + netWorthState demoA 0 * demoA.dividend_yield) *
                (1 - demoA.tax_rate) * demoA.expense_ratio) } ∧
    netWorthState demoA 0 = demoA.initial_net_worth ∧
    salaryState demoA 0 = demoA.initial_salary :=
  snapshot_fields_from_pre_update_state demoA 0 (by norm_num [numYears, demoA])

/-- C2: between consecutive simulated years the running state advances by
exactly `net_worth' = (net_worth + savings) * (1 + asset_growth_rate)` (the
savings being the full-precision value of the earlier year) and
`salary' = salary * (1 + salary_growth_rate)`; the emitted `net_worth` and
`salary` of the later snapshot are the 2-decimal roundings of this
full-precision state, so emission rounding never feeds back into the running
state. -/
theorem state_advance_rule (a : Assumptions) (i : ℕ)
    (hi : i + 1 < numYears a) :
    netWorthState a (i + 1) =
      (netWorthState a i + savingsState a i) * (1 + a.asset_growth_rate) ∧
    salaryState a (i + 1) = salaryState a i * (1 + a.salary_growth_rate) ∧
    ((calculate_net_worth_projection a).get? (i + 1)).map
      YearlySnapshot.net_worth = some (round2 (netWorthState a (i + 1))) ∧
    ((calculate_net_worth_projection a).get? (i + 1)).map
      YearlySnapshot.salary = some (round2 (salaryState a (i + 1))) := by
  refine ⟨netWorthState_succ a i, salaryState_succ a i, ?_, ?_⟩ <;>
  · rw [calc_get? a (i + 1) hi, snapshotFor_eq]
    rfl

/-- Witness for C2 at the two-year run of spec §8. -/
theorem state_advance_rule_witness :
    netWorthState twoYearA 1 =
      (netWorthState twoYearA 0 + savingsState twoYearA 0) *
        (1 + twoYearA.asset_growth_rate) ∧
    salaryState twoYearA 1 =
      salaryState twoYearA 0 * (1 + twoYearA.salary_growth_rate) ∧
    ((calculate_net_worth_projection twoYearA).get? 1).map
      YearlySnapshot.net_worth = some (round2 (netWorthState twoYearA 1)) ∧
    ((calculate_net_worth_projection twoYearA).get? 1).map
      YearlySnapshot.salary = some (round2 (salaryState twoYearA 1)) :=
  state_advance_rule twoYearA 0 (by norm_num [numYears, twoYearA, demoA])

lemma round2_zero : round2 0 = 0 := by
  norm_num [round2, roundHalfEven]

/-- A valid two-year input with `expense_ratio = 1` whose net worth is not a
whole number of cents. -/
def fullExpenseA : Assumptions :=
  { demoA with
    initial_net_worth := 10001/100
    expense_ratio := 1
    end_year := 2025 }

/-- C7 counterexample: with the valid input `expense_ratio = 1`,
`initial_net_worth = 100.01`, `asset_growth_rate = 0.07`, every emitted
savings is 0, but the emitted net worths are 100.01 and 107.01 while
`100.01 * 1.07 = 107.0107`, so the emitted values do not satisfy
`net_worth[i+1] == net_worth[i] * (1 + asset_growth_rate)`: emission rounding
breaks the exact multiplicative relation. -/
theorem full_expense_emitted_ratio_counterexample :
    fullExpenseA.expense_ratio = 1 ∧
    (calculate_net_worth_projection fullExpenseA).map YearlySnapshot.savings =
      [0, 0] ∧
    (calculate_net_worth_projection fullExpenseA).map YearlySnapshot.net_worth =
      [10001/100, 10701/100] ∧
    (10701/100 : ℚ) ≠ 10001/100 * (1 + fullExpenseA.asset_growth_rate) := by
  refine ⟨by norm_num [fullExpenseA, demoA], ?_, ?_, ?_⟩ <;>
    norm_num [fullExpenseA, demoA, calculate_net_worth_projection, numYears,
      projFrom, stepState, snapshotFor, round2, roundHalfEven]

/-- C7 (amended): with `expense_ratio = 1` every emitted snapshot has
`savings = 0` and the full-precision running net worth satisfies
`net_worth[i+1] = net_worth[i] * (1 + asset_growth_rate)` exactly; each
emitted `net_worth` is the 2-decimal rounding of that running value, so the
multiplicative relation holds for the running state but only up to rounding
for the emitted values. -/
theorem full_expense_growth_only (a : Assumptions) (he : a.expense_ratio = 1)
    (i : ℕ) (hi : i < numYears a) :
    ((calculate_net_worth_projection a).get? i).map YearlySnapshot.savings =
      some 0 ∧
    netWorthState a (i + 1) = netWorthState a i * (1 + a.asset_growth_rate) ∧
    ((calculate_net_worth_projection a).get? i).map YearlySnapshot.net_worth =
      some (round2 (netWorthState a i)) := by
  have hsav : savingsState a i = 0 := by
    unfold savingsState
    rw [he]
    ring
  refine ⟨?_, ?_, ?_⟩
  · rw [calc_get? a i hi, snapshotFor_eq]
    have : (salaryState a i + netWorthState a i * a.dividend_yield) *
        (1 - a.tax_rate) -
        (salaryState a i + netWorthState a i * a.dividend_yield) *
          (1 - a.tax_rate) * a.expense_ratio = 0 := by
      rw [he]; ring
    simp only [Option.map_some']
    rw [show ((state a i).2 + (state a i).1 * a.dividend_yield) *
        (1 - a.tax_rate) -
        ((state a i).2 + (state a i).1 * a.dividend_yield) *
          (1 - a.tax_rate) * a.expense_ratio = (0 : ℚ) from this, round2_zero]
  · rw [netWorthState_succ, hsav]
    ring
  · rw [calc_get? a i hi, snapshotFor_eq]
    rfl

/-- Witness for C7's amended theorem at the counterexample input. -/
theorem full_expense_growth_only_witness :
    ((calculate_net_worth_projection fullExpenseA).get? 0).map
      YearlySnapshot.savings = some 0 ∧
    netWorthState fullExpenseA 1 =
      netWorthState fullExpenseA 0 * (1 + fullExpenseA.asset_growth_rate) ∧
    ((calculate_net_worth_projection fullExpenseA).get? 0).map
      YearlySnapshot.net_worth = some (round2 (netWorthState fullExpenseA 0)) :=
  full_expense_growth_only fullExpenseA (by norm_num [fullExpenseA, demoA])
    0 (by norm_num [numYears, fullExpenseA, demoA])

/-- A valid input with a strictly positive but tiny salary growth rate. -/
def tinyGrowthA : Assumptions :=
  { demoA with
    initial_salary := 100
    salary_growth_rate := 1/100000
    end_year := 2025 }

/-- C8 counterexample: with the valid input `initial_salary = 100` and
`salary_growth_rate = 0.00001 > 0` the two emitted salaries are both 100.00
(`round(100.001, 2) = 100.00`), so the emitted salary sequence is not
strictly increasing. -/
theorem salary_not_strictly_increasing_counterexample :
    0 < tinyGrowthA.salary_growth_rate ∧
    (calculate_net_worth_projection tinyGrowthA).map YearlySnapshot.salary =
      [100, 100] ∧
    ¬ ((100 : ℚ) < 100) := by
  refine ⟨by norm_num [tinyGrowthA, demoA], ?_, by norm_num⟩
  norm_num [tinyGrowthA, demoA, calculate_net_worth_projection, numYears,
    projFrom, stepState, snapshotFor, round2, roundHalfEven]

/-- C8 (amended): with `salary_growth_rate > 0` and `initial_salary > 0` the
full-precision running salary strictly increases each year; the emitted
salaries are the 2-decimal roundings of that running value, hence
non-decreasing (rounding can collapse a strict increase, as the
counterexample shows, and with `initial_salary = 0` the salary stays 0). -/
theorem salary_monotone (a : Assumptions) (hs : 0 < a.salary_growth_rate)
    (h0 : 0 < a.initial_salary) (i : ℕ) (hi : i + 1 < numYears a) :
    salaryState a i < salaryState a (i + 1) ∧
    ((calculate_net_worth_projection a).get? i).map YearlySnapshot.salary =
      some (round2 (salaryState a i)) ∧
    ((calculate_net_worth_projection a).get? (i + 1)).map
      YearlySnapshot.salary = some (round2 (salaryState a (i + 1))) ∧
    round2 (salaryState a i) ≤ round2 (salaryState a (i + 1)) := by
  have hpos : ∀ j : ℕ, 0 < salaryState a j := by
    intro j
    induction j with
    | zero => exact h0
    | succ j ih =>
      rw [salaryState_succ]
      exact mul_pos ih (by linarith)
  have hlt : salaryState a i < salaryState a (i + 1) := by
    rw [salaryState_succ]
    nlinarith [mul_pos (hpos i) hs]
  refine ⟨hlt, ?_, ?_, round2_mono hlt.le⟩
  · rw [calc_get? a i (by omega), snapshotFor_eq]
    rfl
  · rw [calc_get? a (i + 1) hi, snapshotFor_eq]
    rfl

/-- Witness for C8's amended theorem at the two-year run of spec §8. -/
theorem salary_monotone_witness :
    salaryState twoYearA 0 < salaryState twoYearA 1 ∧
    ((calculate_net_worth_projection twoYearA).get? 0).map
      YearlySnapshot.salary = some (round2 (salaryState twoYearA 0)) ∧
    ((calculate_net_worth_projection twoYearA).get? 1).map
      YearlySnapshot.salary = some (round2 (salaryState twoYearA 1)) ∧
    round2 (salaryState twoYearA 0) ≤ round2 (salaryState twoYearA 1) :=
  salary_monotone twoYearA (by norm_num [twoYearA, demoA])
    (by norm_num [twoYearA, demoA]) 0
    (by norm_num [numYears, twoYearA, demoA])

/-- C10: with the initial values, dividend yield nonnegative, `tax_rate` and
`expense_ratio` in `[0, 1]`, and both growth rates at least -1, the running
state stays nonnegative, and every non-year field of every emitted snapshot
is nonnegative. -/
theorem projection_nonnegative (a : Assumptions)
    (h1 : 0 ≤ a.initial_net_worth) (h2 : 0 ≤ a.initial_salary)
    (h3 : 0 ≤ a.dividend_yield) (h4 : 0 ≤ a.tax_rate) (h5 : a.tax_rate ≤ 1)
    (h6 : 0 ≤ a.expense_ratio) (h7 : a.expense_ratio ≤ 1)
    (h8 : -1 ≤ a.asset_growth_rate) (h9 : -1 ≤ a.salary_growth_rate) :
    (∀ i : ℕ, 0 ≤ netWorthState a i ∧ 0 ≤ salaryState a i) ∧
    ∀ s ∈ calculate_net_worth_projection a,
      0 ≤ s.net_worth ∧ 0 ≤ s.salary ∧ 0 ≤ s.dividend_income ∧
      0 ≤ s.total_income ∧ 0 ≤ s.after_tax_income ∧ 0 ≤ s.expenses ∧
      0 ≤ s.savings := by
  have hstate := state_nonneg a h1 h2 h3 h5 h6 h7 h8 h9
  refine ⟨hstate, ?_⟩
  intro s hs
  obtain ⟨n, hn⟩ := List.mem_iff_get?.mp hs
  have hlen : n < numYears a := by
    have := List.get?_eq_some.mp hn
    obtain ⟨hlt, -⟩ := this
    rwa [calc_length] at hlt
  rw [calc_get? a n hlen] at hn
  obtain rfl : snapshotFor a (a.start_year + n) (state a n) = s :=
    Option.some_injective _ hn
  exact snapshotFor_nonneg a h3 h5 h6 h7 _ _ (hstate n).1 (hstate n).2

/-- Witness for C10 at the concrete scenario of spec §8. -/
theorem projection_nonnegative_witness :
    (∀ i : ℕ, 0 ≤ netWorthState demoA i ∧ 0 ≤ salaryState demoA i) ∧
    ∀ s ∈ calculate_net_worth_projection demoA,
      0 ≤ s.net_worth ∧ 0 ≤ s.salary ∧ 0 ≤ s.dividend_income ∧
      0 ≤ s.total_income ∧ 0 ≤ s.after_tax_income ∧ 0 ≤ s.expenses ∧
      0 ≤ s.savings :=
  projection_nonnegative demoA (by norm_num [demoA]) (by norm_num [demoA])
    (by norm_num [demoA]) (by norm_num [demoA]) (by norm_num [demoA])
    (by norm_num [demoA]) (by norm_num [demoA]) (by norm_num [demoA])
    (by norm_num [demoA])

/-- C4: the sweep table has one row per growth-grid entry (in grid order) and
one column per tax-grid entry (in grid order), and cell `[i][j]` is the
`net_worth` of the last snapshot of a full projection run with
`tax_rate = tax_rate_grid[j]` and `asset_growth_rate = growth_rate_grid[i]`
substituted and everything else held fixed. -/
theorem sweep_shape_and_cells (a : Assumptions)
    (tax_rate_grid growth_rate_grid : List ℚ)
    (h : a.start_year ≤ a.end_year) (i j : ℕ)
    (hi : i < growth_rate_grid.length) (hj : j < tax_rate_grid.length) :
    (sweep a tax_rate_grid growth_rate_grid).length =
      growth_rate_grid.length ∧
    ((sweep a tax_rate_grid growth_rate_grid).get? i).map List.length =
      some tax_rate_grid.length ∧
    ((sweep a tax_rate_grid growth_rate_grid).get? i).bind
        (fun row => row.get? j) =
      ((calculate_net_worth_projection
          { a with tax_rate := tax_rate_grid.getD j 0,
                   asset_growth_rate := growth_rate_grid.getD i 0 }).getLast?).map
        YearlySnapshot.net_worth := by
  have hgg : growth_rate_grid.get? i = some (growth_rate_grid.getD i 0) := by
    rw [List.getD_eq_get?]
    cases hx : growth_rate_grid.get? i with
    | none =>
      exact absurd (List.get?_eq_none.mp hx) (by omega)
    | some x => rfl
  have htg : tax_rate_grid.get? j = some (tax_rate_grid.getD j 0) := by
    rw [List.getD_eq_get?]
    cases hx : tax_rate_grid.get? j with
    | none =>
      exact absurd (List.get?_eq_none.mp hx) (by omega)
    | some x => rfl
  set a' : Assumptions :=
    { a with tax_rate := tax_rate_grid.getD j 0,
             asset_growth_rate := growth_rate_grid.getD i 0 } with ha'
  have h' : a'.start_year ≤ a'.end_year := h
  refine ⟨by simp [sweep], ?_, ?_⟩
  · rw [sweep, List.get?_map, hgg]
    simp
  · rw [sweep, List.get?_map, hgg]
    simp only [Option.map_some', Option.some_bind, List.get?_map, htg]
    rw [calc_getLast? a' h', finalNetWorth_eq a' h', snapshotFor_eq]
    rfl

/-- Witness for C4 at the spec §8 scenario with one-point grids. -/
theorem sweep_shape_and_cells_witness :
    (sweep demoA [1/10] [5/100]).length = ([(5 : ℚ)/100]).length ∧
    ((sweep demoA [1/10] [5/100]).get? 0).map List.length =
      some ([(1 : ℚ)/10]).length ∧
    ((sweep demoA [1/10] [5/100]).get? 0).bind (fun row => row.get? 0) =
      ((calculate_net_worth_projection
          { demoA with tax_rate := ([(1 : ℚ)/10]).getD 0 0,
                       asset_growth_rate := ([(5 : ℚ)/100]).getD 0 0 }).getLast?).map
        YearlySnapshot.net_worth :=
  sweep_shape_and_cells demoA [1/10] [5/100] (by norm_num [demoA]) 0 0
    (by norm_num) (by norm_num)

